import Mathlib

/-!
Verification of the Fermax Blue client core (fermax_api.py and
fermax_integration.py) against its natural-language specification.

The Python client is shallowly embedded: instance state becomes an explicit
`ClientState` record threaded through each operation, network traffic becomes
a script of outcomes consumed call by call, raised Python exceptions become an
explicit `PRes.exn` result constructor, and wall-clock time is a fixed integer
number of seconds supplied to each operation.
-/

/-- AccessId as built by the code: three concrete integers. -/
structure AccessId where
  block : Int
  subblock : Int
  number : Int
deriving DecidableEq, Repr

/-- The raw accessId JSON object inside a door entry; any field may be absent. -/
structure AccessIdJson where
  block : Option Int
  subblock : Option Int
  number : Option Int
deriving DecidableEq, Repr

/-- A raw door entry inside a pairing accessDoorMap. -/
structure DoorEntry where
  title : Option String
  visible : Option Bool
  accessId : Option AccessIdJson
deriving DecidableEq, Repr

/-- A raw pairing record as returned by the pairings endpoint; the
accessDoorMap is an insertion-ordered dict, embedded as an association list. -/
structure Pairing where
  id : Option String
  deviceId : Option String
  tag : Option String
  home : Option String
  address : Option String
  accessDoorMap : List (String × DoorEntry)
deriving DecidableEq, Repr

/-- The JSON body of a token-exchange response. -/
structure OAuthBody where
  access_token : Option String
  refresh_token : Option String
  expires_in : Option Int
deriving DecidableEq, Repr

/-- The mutable fields of the client instance that the claims concern. -/
structure ClientState where
  access_token : Option String
  refresh_token : Option String
  token_expires_at : Option Int
  pairings : List Pairing
deriving DecidableEq, Repr

/-- The error taxonomy of fermax_api.py:
FermaxBlueAuthError and FermaxBlueConnectionError subclass FermaxBlueAPIError. -/
inductive FermaxErr where
  | authError (msg : String)
  | connectionError (msg : String)
  | apiError (msg : String)
deriving DecidableEq, Repr

/-- Python exceptions that can travel through the except chains: asyncio
timeouts, aiohttp client errors (connector errors being a subclass), the
Fermax taxonomy, and arbitrary other exceptions. -/
inductive PyExn where
  | timeoutErr
  | clientConnectorErr (msg : String)
  | clientErr (msg : String)
  | fermax (e : FermaxErr)
  | otherExn (msg : String)
deriving DecidableEq, Repr

/-- Result of a Python call: a returned value or a raised exception. -/
inductive PRes (α : Type) where
  | ok (a : α)
  | exn (e : PyExn)
deriving DecidableEq, Repr

/-- Outcome of one HTTP request to the OAuth token endpoint. -/
inductive OauthOutcome where
  | resp (status : Nat) (body : OAuthBody) (text : String)
  | exn (e : PyExn)
deriving DecidableEq, Repr

/-- Outcome of one HTTP request to the pairings endpoint. -/
inductive PairOutcome where
  | resp (status : Nat) (body : List Pairing) (text : String)
  | exn (e : PyExn)
deriving DecidableEq, Repr

/-- Outcome of one HTTP request to the directed-opendoor endpoint. -/
inductive DoorOutcome where
  | resp (status : Nat) (text : String)
  | exn (e : PyExn)
deriving DecidableEq, Repr

/-- Python truthiness test on an optional string: None and the empty string
are falsy. -/
def optFalsy : Option String → Bool
  | none => true
  | some s => s == ""

/-- FermaxBlueAPI._needs_refresh and FermaxBlueIntegration._needs_refresh
(identical code): no token, no expiry, or now at or past expiry minus the
five-minute (300 second) buffer. -/
def needs_refresh (st : ClientState) (now : Int) : Bool :=
  if optFalsy st.access_token then true
  else
    match st.token_expires_at with
    | none => true
    | some e => decide (now ≥ e - 300)

/-- Lower-casing as Python str.lower does on this ASCII data. -/
def pyLower (s : String) : String :=
  String.mk (s.toList.map Char.toLower)

/-- Substring containment on character lists. -/
def listContainsSub (needle : List Char) : List Char → Bool
  | [] => needle.isEmpty
  | c :: rest => needle.isPrefixOf (c :: rest) || listContainsSub needle rest

/-- Python `needle in haystack` substring test. -/
def containsSub (needle haystack : String) : Bool :=
  listContainsSub needle.toList haystack.toList

/-- The success indicator list shared by both open_door implementations. -/
def success_indicators : List String :=
  ["ok", "success", "open", "abierta", "abierto", "puerta abierta"]

/-- The error indicator list of FermaxBlueIntegration.open_door. -/
def error_indicators : List String :=
  ["ko", "error", "fail", "cerrada", "bloqueada"]

/-- HTTP-200 body classification in FermaxBlueAPI.open_door: both branches
return True (there is no negative branch in this file). -/
def apiClassify200 (result_text : String) : Bool :=
  let result_lower := pyLower result_text
  if success_indicators.any (fun i => containsSub i result_lower) then true
  else true

/-- HTTP-200 body classification in FermaxBlueIntegration.open_door. -/
def integClassify200 (result_text : String) : Bool :=
  let result_lower := pyLower result_text
  if success_indicators.any (fun i => containsSub i result_lower) then true
  else if error_indicators.any (fun i => containsSub i result_lower) then false
  else true

/-- Python f-string rendering of a possibly-None string. -/
def pyStr : Option String → String
  | none => "None"
  | some s => s

/-- The AccessId built from a door entry: a missing accessId object or any
missing component defaults to 0. -/
def doorAccessId (door_data : DoorEntry) : AccessId :=
  let a := door_data.accessId.getD ⟨none, none, none⟩
  ⟨a.block.getD 0, a.subblock.getD 0, a.number.getD 0⟩

/-- A door record as built by FermaxBlueAPI.get_door_devices. -/
structure Door where
  id : String
  name : String
  device_id : Option String
  access_id : AccessId
  pairing_tag : String
  home : String
deriving DecidableEq, Repr

/-- A door record as built by FermaxBlueIntegration.get_door_devices. -/
structure DoorI where
  id : String
  name : String
  device_id : Option String
  access_id : AccessId
  pairing_tag : String
  home : String
  device_name : String
  door_name : String
deriving DecidableEq, Repr

/-- The door dict appended by FermaxBlueAPI.get_door_devices for one visible
entry: the name is the bare entry title (fallback Door plus key). -/
def mkApiDoor (pairing : Pairing) (kv : String × DoorEntry) : Door :=
  { id := pyStr pairing.deviceId ++ "_" ++ kv.1
    name := kv.2.title.getD ("Door " ++ kv.1)
    device_id := pairing.deviceId
    access_id := doorAccessId kv.2
    pairing_tag := pairing.tag.getD ""
    home := pairing.home.getD "" }

/-- FermaxBlueAPI.get_door_devices. -/
def apiGetDoorDevices (pairings : List Pairing) : List Door :=
  pairings.flatMap (fun pairing =>
    (pairing.accessDoorMap.filter (fun kv => kv.2.visible.getD true)).map
      (mkApiDoor pairing))

/-- The door dict appended by FermaxBlueIntegration.get_door_devices: the name
prefixes the pairing tag (default Telefonillo) to the entry title. -/
def mkIntegDoor (pairing : Pairing) (kv : String × DoorEntry) : DoorI :=
  let device_name := pairing.tag.getD "Telefonillo"
  let door_name := kv.2.title.getD ("Door " ++ kv.1)
  { id := pyStr pairing.deviceId ++ "_" ++ kv.1
    name := device_name ++ " " ++ door_name
    device_id := pairing.deviceId
    access_id := doorAccessId kv.2
    pairing_tag := pairing.tag.getD ""
    home := pairing.home.getD ""
    device_name := device_name
    door_name := door_name }

/-- FermaxBlueIntegration.get_door_devices. -/
def integGetDoorDevices (pairings : List Pairing) : List DoorI :=
  pairings.flatMap (fun pairing =>
    (pairing.accessDoorMap.filter (fun kv => kv.2.visible.getD true)).map
      (mkIntegDoor pairing))

/-- Home information record. -/
structure HomeInfo where
  id : String
  name : String
  address : String
deriving DecidableEq, Repr

/-- get_home_info (identical in both files). -/
def get_home_info (pairings : List Pairing) : HomeInfo :=
  match pairings with
  | [] => ⟨"unknown", "Fermax Blue Home", ""⟩
  | first_pairing :: _ =>
      ⟨first_pairing.id.getD "unknown",
       first_pairing.home.getD "Fermax Blue Home",
       first_pairing.address.getD ""⟩

/-- The except chain of FermaxBlueAPI.authenticate: timeouts and aiohttp
client errors become FermaxBlueConnectionError, Fermax errors re-raise
unchanged, any other exception becomes FermaxBlueAPIError. -/
def apiAuthExcept : PyExn → PyExn
  | .timeoutErr => .fermax (.connectionError "Request timed out")
  | .clientConnectorErr m => .fermax (.connectionError ("Connection failed: " ++ m))
  | .clientErr m => .fermax (.connectionError ("Cannot connect to Fermax Blue API: " ++ m))
  | .fermax e => .fermax e
  | .otherExn m => .fermax (.apiError ("Unknown error occurred: " ++ m))

/-- The except chain of FermaxBlueAPI.get_pairings and open_door: the
asyncio.TimeoutError and aiohttp.ClientError handlers both map to
FermaxBlueConnectionError, Fermax errors re-raise, the rest becomes
FermaxBlueAPIError. -/
def apiReqExcept : PyExn → PyExn
  | .timeoutErr => .fermax (.connectionError "Request timed out")
  | .clientConnectorErr m => .fermax (.connectionError ("Cannot connect to Fermax Blue API: " ++ m))
  | .clientErr m => .fermax (.connectionError ("Cannot connect to Fermax Blue API: " ++ m))
  | .fermax e => .fermax e
  | .otherExn m => .fermax (.apiError ("Unknown error occurred: " ++ m))

/-- FermaxBlueAPI.authenticate. The next OAuth outcome is consumed; an
exhausted script stands for a request that never got an answer, i.e. a
timeout. On 200 the code first stores access and refresh token from the body,
then either records the expiry and returns True (truthy token) or raises
FermaxBlueAuthError (falsy token); 400 and 401 raise FermaxBlueAuthError with
the error description; other statuses raise FermaxBlueConnectionError. -/
def apiAuthenticate (st : ClientState) (now : Int) :
    List OauthOutcome → PRes Bool × ClientState × List OauthOutcome
  | [] => (.exn (apiAuthExcept .timeoutErr), st, [])
  | .exn e :: rest => (.exn (apiAuthExcept e), st, rest)
  | .resp s body text :: rest =>
    if s == 200 then
      let st1 := { st with access_token := body.access_token,
                           refresh_token := body.refresh_token }
      if optFalsy body.access_token then
        (.exn (apiAuthExcept (.fermax (.authError "No access token received"))), st1, rest)
      else
        (.ok true,
         { st1 with token_expires_at := some (now + body.expires_in.getD 3600) },
         rest)
    else if s == 400 || s == 401 then
      (.exn (apiAuthExcept (.fermax (.authError text))), st, rest)
    else
      (.exn (apiAuthExcept (.fermax (.connectionError text))), st, rest)

/-- FermaxBlueAPI.refresh_auth. Without a refresh token it degrades to
authenticate. Otherwise it consumes one OAuth outcome: on 200 it stores the
new access token, keeps the old refresh token unless the body supplies a
truthy one, records the expiry and returns True; on any other status, and on
any exception in the try block (the except Exception handler), it falls back
to a full authenticate. -/
def apiRefreshAuth (st : ClientState) (now : Int)
    (script : List OauthOutcome) : PRes Bool × ClientState × List OauthOutcome :=
  if optFalsy st.refresh_token then apiAuthenticate st now script
  else
    match script with
    | [] => apiAuthenticate st now []
    | .exn _ :: rest => apiAuthenticate st now rest
    | .resp s body _ :: rest =>
      if s == 200 then
        let st1 := { st with access_token := body.access_token }
        let st2 := if optFalsy body.refresh_token then st1
                   else { st1 with refresh_token := body.refresh_token }
        (.ok true,
         { st2 with token_expires_at := some (now + body.expires_in.getD 3600) },
         rest)
      else apiAuthenticate st now rest

/-- FermaxBlueAPI._ensure_auth: when the token needs refresh, run refresh_auth
if a refresh token is held, else authenticate; a falsy return raises
FermaxBlueAuthError. Otherwise a no-op. -/
def apiEnsureAuth (st : ClientState) (now : Int)
    (script : List OauthOutcome) : PRes Bool × ClientState × List OauthOutcome :=
  if needs_refresh st now then
    if optFalsy st.refresh_token then
      match apiAuthenticate st now script with
      | (.ok b, st1, rest) =>
        if b then (.ok true, st1, rest)
        else (.exn (.fermax (.authError "Failed to authenticate")), st1, rest)
      | (.exn e, st1, rest) => (.exn e, st1, rest)
    else
      match apiRefreshAuth st now script with
      | (.ok b, st1, rest) =>
        if b then (.ok true, st1, rest)
        else (.exn (.fermax (.authError "Failed to refresh authentication")), st1, rest)
      | (.exn e, st1, rest) => (.exn e, st1, rest)
  else (.ok true, st, script)

/-- A raise escaping a nested call inside the try block of get_pairings or
open_door passes the except chain of that frame. -/
def wrapReq {α β : Type} (r : PRes α × ClientState × List OauthOutcome × List β) :
    PRes α × ClientState × List OauthOutcome × List β :=
  match r.1 with
  | .exn e => (.exn (apiReqExcept e), r.2.1, r.2.2.1, r.2.2.2)
  | .ok _ => r

/-- FermaxBlueAPI.get_pairings: _ensure_auth (outside the try block), then one
GET consuming the next pairings outcome. 200 stores and returns the body; 401
runs refresh_auth and recursively retries, with the whole recursion inside
the try block of this frame so its raises pass the except chain; other statuses
raise FermaxBlueConnectionError. -/
def apiGetPairings (now : Int) :
    List PairOutcome → ClientState → List OauthOutcome →
    PRes (List Pairing) × ClientState × List OauthOutcome × List PairOutcome
  | pairs, st, oauth =>
    let ea := apiEnsureAuth st now oauth
    match ea.1 with
    | .exn e => (.exn e, ea.2.1, ea.2.2, pairs)
    | .ok _ =>
      match pairs with
      | [] => (.exn (apiReqExcept .timeoutErr), ea.2.1, ea.2.2, [])
      | .exn e :: rest => (.exn (apiReqExcept e), ea.2.1, ea.2.2, rest)
      | .resp s body text :: rest =>
        if s == 200 then (.ok body, { ea.2.1 with pairings := body }, ea.2.2, rest)
        else if s == 401 then
          let ra := apiRefreshAuth ea.2.1 now ea.2.2
          match ra.1 with
          | .ok b =>
            if b then wrapReq (apiGetPairings now rest ra.2.1 ra.2.2)
            else
              (.exn (apiReqExcept (.fermax (.authError "Failed to refresh authentication"))),
               ra.2.1, ra.2.2, rest)
          | .exn e => (.exn (apiReqExcept e), ra.2.1, ra.2.2, rest)
        else (.exn (apiReqExcept (.fermax (.connectionError text))), ea.2.1, ea.2.2, rest)

/-- FermaxBlueAPI.open_door: _ensure_auth (outside the try block), then one
POST consuming the next door outcome. 200 classifies the body text (always
True in this file); 401 runs refresh_auth and recursively retries; other
statuses raise FermaxBlueAPIError. -/
def apiOpenDoor (now : Int) (device_id : String) (access_id : AccessId) :
    List DoorOutcome → ClientState → List OauthOutcome →
    PRes Bool × ClientState × List OauthOutcome × List DoorOutcome
  | doors, st, oauth =>
    let ea := apiEnsureAuth st now oauth
    match ea.1 with
    | .exn e => (.exn e, ea.2.1, ea.2.2, doors)
    | .ok _ =>
      match doors with
      | [] => (.exn (apiReqExcept .timeoutErr), ea.2.1, ea.2.2, [])
      | .exn e :: rest => (.exn (apiReqExcept e), ea.2.1, ea.2.2, rest)
      | .resp s result_text :: rest =>
        if s == 200 then (.ok (apiClassify200 result_text), ea.2.1, ea.2.2, rest)
        else if s == 401 then
          let ra := apiRefreshAuth ea.2.1 now ea.2.2
          match ra.1 with
          | .ok b =>
            if b then wrapReq (apiOpenDoor now device_id access_id rest ra.2.1 ra.2.2)
            else
              (.exn (apiReqExcept (.fermax (.authError "Authentication failed"))),
               ra.2.1, ra.2.2, rest)
          | .exn e => (.exn (apiReqExcept e), ra.2.1, ra.2.2, rest)
        else
          (.exn (apiReqExcept (.fermax (.apiError ("Door open failed: " ++ result_text)))),
           ea.2.1, ea.2.2, rest)

/-- FermaxBlueIntegration.authenticate: never raises; on 200 it wholesale
replaces the token state and returns True, on any other status or any
exception it returns False. -/
def integAuthenticate (st : ClientState) (now : Int) :
    List OauthOutcome → Bool × ClientState × List OauthOutcome
  | [] => (false, st, [])
  | .exn _ :: rest => (false, st, rest)
  | .resp s body _ :: rest =>
    if s == 200 then
      (true,
       { st with access_token := body.access_token,
                 refresh_token := body.refresh_token,
                 token_expires_at := some (now + body.expires_in.getD 3600) },
       rest)
    else (false, st, rest)

/-- FermaxBlueIntegration.get_pairings: authenticate first when the token is
falsy or needs refresh (empty list on failure); then one GET. 200 stores and
returns the body; 401 re-authenticates and recursively retries, or returns the
empty list when that fails; other statuses and exceptions return the empty
list. -/
def integGetPairings (now : Int) :
    List PairOutcome → ClientState → List OauthOutcome →
    List Pairing × ClientState × List OauthOutcome × List PairOutcome
  | pairs, st, oauth =>
    let pre :=
      if optFalsy st.access_token || needs_refresh st now then
        integAuthenticate st now oauth
      else (true, st, oauth)
    if pre.1 then
      match pairs with
      | [] => ([], pre.2.1, pre.2.2, [])
      | .exn _ :: rest => ([], pre.2.1, pre.2.2, rest)
      | .resp s body _ :: rest =>
        if s == 200 then (body, { pre.2.1 with pairings := body }, pre.2.2, rest)
        else if s == 401 then
          let a2 := integAuthenticate pre.2.1 now pre.2.2
          if a2.1 then integGetPairings now rest a2.2.1 a2.2.2
          else ([], a2.2.1, a2.2.2, rest)
        else ([], pre.2.1, pre.2.2, rest)
    else ([], pre.2.1, pre.2.2, pairs)

/-- FermaxBlueIntegration.open_door: authenticate first when the token is
falsy or needs refresh (False on failure); then one POST. 200 classifies the
body into True, False or soft-success True; 401 re-authenticates and
recursively retries; other statuses and exceptions return False. -/
def integOpenDoor (now : Int) (device_id : String) (access_id : AccessId) :
    List DoorOutcome → ClientState → List OauthOutcome →
    Bool × ClientState × List OauthOutcome × List DoorOutcome
  | doors, st, oauth =>
    let pre :=
      if optFalsy st.access_token || needs_refresh st now then
        integAuthenticate st now oauth
      else (true, st, oauth)
    if pre.1 then
      match doors with
      | [] => (false, pre.2.1, pre.2.2, [])
      | .exn _ :: rest => (false, pre.2.1, pre.2.2, rest)
      | .resp s result_text :: rest =>
        if s == 200 then (integClassify200 result_text, pre.2.1, pre.2.2, rest)
        else if s == 401 then
          let a2 := integAuthenticate pre.2.1 now pre.2.2
          if a2.1 then integOpenDoor now device_id access_id rest a2.2.1 a2.2.2
          else (false, a2.2.1, a2.2.2, rest)
        else (false, pre.2.1, pre.2.2, rest)
    else (false, pre.2.1, pre.2.2, doors)

/-- An exception belongs to the documented Fermax error taxonomy. -/
def taxonomy : PyExn → Bool
  | .fermax _ => true
  | _ => false

/-- A result is an explicit success or a taxonomy failure (no alien fault). -/
def resTaxonomy {α : Type} : PRes α → Bool
  | .ok _ => true
  | .exn e => taxonomy e

/-- Whether a pairings-endpoint outcome is an HTTP 200 response. -/
def pairIs200 : PairOutcome → Bool
  | .resp s _ _ => s == 200
  | .exn _ => false

/-- The Door of the spec claim: id, display name and AccessId. -/
structure SpecDoor where
  id : String
  display_name : String
  access_id : AccessId
deriving DecidableEq, Repr

/-- Written from the claim wording, for comparison with the code: one Door
per access-door-map entry whose visible flag is true (absent defaulting to
visible), id deviceId underscore doorKey, display name pairing tag plus space
plus entry title (title falling back to Door plus doorKey, tag falling back
to the code default Telefonillo), AccessId copied verbatim. -/
def map_doors_spec (pairings : List Pairing) : List SpecDoor :=
  pairings.flatMap (fun p =>
    (p.accessDoorMap.filter (fun kv => kv.2.visible.getD true)).map (fun kv =>
      ⟨pyStr p.deviceId ++ "_" ++ kv.1,
       p.tag.getD "Telefonillo" ++ " " ++ kv.2.title.getD ("Door " ++ kv.1),
       doorAccessId kv.2⟩))

/-! Helper lemmas shared between claims. -/

/-- A state that does not need refresh has a truthy access token. -/
theorem optFalsy_of_fresh (st : ClientState) (now : Int)
    (h : needs_refresh st now = false) : optFalsy st.access_token = false := by
  by_contra hc
  have ht : optFalsy st.access_token = true := by
    cases hv : optFalsy st.access_token
    · exact absurd hv hc
    · rfl
  simp [needs_refresh, ht] at h

/-- Claim C4: needs_refresh is true exactly when there is no (truthy) access
token, no recorded expiry, or the current time is at or past the expiry minus
the five-minute buffer; hence it is false whenever the expiry lies strictly
more than five minutes in the future with a token present. -/
theorem C4_needs_refresh_iff (st : ClientState) (now : Int) :
    needs_refresh st now = true ↔
      (optFalsy st.access_token = true ∨ st.token_expires_at = none ∨
        ∃ e, st.token_expires_at = some e ∧ now ≥ e - 300) := by
  unfold needs_refresh
  cases hf : optFalsy st.access_token
  · cases he : st.token_expires_at
    · simp
    · simp [decide_eq_true_eq]
  · simp

/-- Claim C5: on an HTTP-200 token exchange both authenticate implementations
set the expiry to now plus the expires_in of the body, defaulting to 3600
seconds when expires_in is absent (the api version requiring the body to carry
a truthy access token, its success condition). -/
theorem C5_authenticate_expiry (st : ClientState) (now : Int) (body : OAuthBody)
    (text : String) (rest : List OauthOutcome) :
    (∀ d, body.expires_in = some d →
      (integAuthenticate st now (.resp 200 body text :: rest)).2.1.token_expires_at =
        some (now + d)) ∧
    (body.expires_in = none →
      (integAuthenticate st now (.resp 200 body text :: rest)).2.1.token_expires_at =
        some (now + 3600)) ∧
    (∀ tok d, body.access_token = some tok → tok ≠ "" → body.expires_in = some d →
      (apiAuthenticate st now (.resp 200 body text :: rest)).2.1.token_expires_at =
        some (now + d)) ∧
    (∀ tok, body.access_token = some tok → tok ≠ "" → body.expires_in = none →
      (apiAuthenticate st now (.resp 200 body text :: rest)).2.1.token_expires_at =
        some (now + 3600)) := by
  refine ⟨?_, ?_, ?_, ?_⟩
  · intro d hd
    simp [integAuthenticate, hd]
  · intro hd
    simp [integAuthenticate, hd]
  · intro tok d htok hne hd
    have hfal : optFalsy body.access_token = false := by
      simp [optFalsy, htok, hne]
    simp [apiAuthenticate, hfal, hd]
  · intro tok htok hne hd
    have hfal : optFalsy body.access_token = false := by
      simp [optFalsy, htok, hne]
    simp [apiAuthenticate, hfal, hd]

/-- Claim C5 witness. -/
theorem C5_authenticate_expiry_witness :
    (integAuthenticate ⟨none, none, none, []⟩ 50
        [.resp 200 ⟨some "a", some "r", some 3600⟩ ""]).2.1.token_expires_at =
      some (50 + 3600) ∧
    (apiAuthenticate ⟨none, none, none, []⟩ 50
        [.resp 200 ⟨some "a", some "r", none⟩ ""]).2.1.token_expires_at =
      some (50 + 3600) :=
  ⟨(C5_authenticate_expiry ⟨none, none, none, []⟩ 50 ⟨some "a", some "r", some 3600⟩ ""
      []).1 3600 rfl,
   (C5_authenticate_expiry ⟨none, none, none, []⟩ 50 ⟨some "a", some "r", none⟩ ""
      []).2.2.2 "a" rfl (by decide) rfl⟩

/-- Claim C6: refresh_auth with no (truthy) refresh token is literally
authenticate on the same state and script; with a refresh token whose exchange
the server rejects (non-200) or that fails in transport (an exception), it
falls back to a full authenticate on the remaining script. -/
theorem C6_refresh_fallback (st : ClientState) (now : Int) :
    (∀ script, optFalsy st.refresh_token = true →
      apiRefreshAuth st now script = apiAuthenticate st now script) ∧
    (∀ s body text rest, optFalsy st.refresh_token = false → s ≠ 200 →
      apiRefreshAuth st now (.resp s body text :: rest) =
        apiAuthenticate st now rest) ∧
    (∀ e rest, optFalsy st.refresh_token = false →
      apiRefreshAuth st now (.exn e :: rest) = apiAuthenticate st now rest) := by
  refine ⟨?_, ?_, ?_⟩
  · intro script h
    simp [apiRefreshAuth, h]
  · intro s body text rest h hs
    simp [apiRefreshAuth, h, hs]
  · intro e rest h
    simp [apiRefreshAuth, h]

/-- Claim C6 witness. -/
theorem C6_refresh_fallback_witness :
    apiRefreshAuth ⟨some "a", none, some 1000, []⟩ 0 [] =
      apiAuthenticate ⟨some "a", none, some 1000, []⟩ 0 [] ∧
    apiRefreshAuth ⟨some "a", some "r", some 1000, []⟩ 0 [.resp 500 ⟨none, none, none⟩ "x"] =
      apiAuthenticate ⟨some "a", some "r", some 1000, []⟩ 0 [] ∧
    apiRefreshAuth ⟨some "a", some "r", some 1000, []⟩ 0 [.exn .timeoutErr] =
      apiAuthenticate ⟨some "a", some "r", some 1000, []⟩ 0 [] :=
  ⟨(C6_refresh_fallback ⟨some "a", none, some 1000, []⟩ 0).1 [] rfl,
   (C6_refresh_fallback ⟨some "a", some "r", some 1000, []⟩ 0).2.1 500 ⟨none, none, none⟩
     "x" [] rfl (by decide),
   (C6_refresh_fallback ⟨some "a", some "r", some 1000, []⟩ 0).2.2 .timeoutErr [] rfl⟩

/-- Claim C7 counterexample: a successful refresh (result True) whose 200
response body carries no refresh_token overwrites access_token and
token_expires_at but retains the previous refresh_token: the TokenState is
partially, not wholesale, replaced on this successful path. -/
theorem C7_counterexample :
    apiRefreshAuth ⟨some "a", some "r", some 1000, []⟩ 0
        [.resp 200 ⟨some "b", none, some 100⟩ ""] =
      (.ok true, ⟨some "b", some "r", some 100, []⟩, []) ∧
    (⟨some "b", some "r", some 100, []⟩ : ClientState).refresh_token =
      (⟨some "a", some "r", some 1000, []⟩ : ClientState).refresh_token ∧
    (⟨some "b", some "r", some 100, []⟩ : ClientState).access_token ≠
      (⟨some "a", some "r", some 1000, []⟩ : ClientState).access_token := by
  refine ⟨rfl, rfl, by decide⟩

/-- Claim C7 as amended: a successful authenticate wholesale-replaces the
token fields from the response body; a successful refresh replaces
access_token and token_expires_at but keeps the previous refresh_token
whenever the response body carries no truthy refresh_token. -/
theorem C7_wholesale_amended :
    (∀ (st : ClientState) (now : Int) (body : OAuthBody) (text : String)
      (rest : List OauthOutcome), optFalsy body.access_token = false →
      apiAuthenticate st now (.resp 200 body text :: rest) =
        (.ok true,
         { access_token := body.access_token, refresh_token := body.refresh_token,
           token_expires_at := some (now + body.expires_in.getD 3600),
           pairings := st.pairings }, rest)) ∧
    (∀ (st : ClientState) (now : Int) (body : OAuthBody) (text : String)
      (rest : List OauthOutcome), optFalsy st.refresh_token = false →
      apiRefreshAuth st now (.resp 200 body text :: rest) =
        (.ok true,
         { access_token := body.access_token,
           refresh_token :=
             if optFalsy body.refresh_token then st.refresh_token
             else body.refresh_token,
           token_expires_at := some (now + body.expires_in.getD 3600),
           pairings := st.pairings }, rest)) := by
  constructor
  · intro st now body text rest h
    simp [apiAuthenticate, h]
  · intro st now body text rest h
    cases hb : optFalsy body.refresh_token <;>
      simp [apiRefreshAuth, h, hb]

/-- Claim C7 amended witness. -/
theorem C7_wholesale_amended_witness :
    apiAuthenticate ⟨some "a", some "r", some 1000, [] ⟩ 0
        [.resp 200 ⟨some "b", some "r2", some 100⟩ ""] =
      (.ok true, ⟨some "b", some "r2", some 100, []⟩, []) ∧
    apiRefreshAuth ⟨some "a", some "r", some 1000, []⟩ 0
        [.resp 200 ⟨some "b", none, some 100⟩ ""] =
      (.ok true, ⟨some "b", some "r", some 100, []⟩, []) :=
  ⟨C7_wholesale_amended.1 ⟨some "a", some "r", some 1000, []⟩ 0
     ⟨some "b", some "r2", some 100⟩ "" [] rfl,
   C7_wholesale_amended.2 ⟨some "a", some "r", some 1000, []⟩ 0
     ⟨some "b", none, some 100⟩ "" [] rfl⟩

/-- A state that does not need refresh makes _ensure_auth a no-op. -/
theorem apiEnsureAuth_fresh (st : ClientState) (now : Int)
    (script : List OauthOutcome) (h : needs_refresh st now = false) :
    apiEnsureAuth st now script = (.ok true, st, script) := by
  simp [apiEnsureAuth, h]

/-- Claim C2 counterexample: on an HTTP-200 response whose body is
KO bloqueada — a negative token (ko) with no affirmative token present —
FermaxBlueAPI.open_door returns true, not false as claimed: this
implementation has no negative branch for 200 responses. -/
theorem C2_counterexample :
    (apiOpenDoor 0 "D1" ⟨1, 0, 5⟩ [.resp 200 "KO bloqueada"]
        ⟨some "tok", some "r", some 10000, []⟩ []).1 = .ok true ∧
    containsSub "ko" (pyLower "KO bloqueada") = true ∧
    success_indicators.any (fun i => containsSub i (pyLower "KO bloqueada")) = false := by
  refine ⟨rfl, rfl, by decide⟩

/-- Claim C2 as amended: on HTTP 200 the integration open_door returns true on
an affirmative token, false on a negative token with no affirmative one, and
true on an ambiguous body (soft success); the api open_door returns true for
every HTTP-200 body. -/
theorem C2_open_door_amended (st : ClientState) (now : Int) (device_id : String)
    (access_id : AccessId) (b : String) (oauth : List OauthOutcome)
    (rest : List DoorOutcome) (h : needs_refresh st now = false) :
    (apiOpenDoor now device_id access_id (.resp 200 b :: rest) st oauth).1 = .ok true ∧
    (integOpenDoor now device_id access_id (.resp 200 b :: rest) st oauth).1 =
      (if success_indicators.any (fun i => containsSub i (pyLower b)) then true
       else if error_indicators.any (fun i => containsSub i (pyLower b)) then false
       else true) := by
  constructor
  · simp [apiOpenDoor, apiEnsureAuth_fresh st now oauth h, apiClassify200]
  · simp [integOpenDoor, optFalsy_of_fresh st now h, h, integClassify200]

/-- Claim C2 amended witness. -/
theorem C2_open_door_amended_witness :
    (apiOpenDoor 0 "D1" ⟨1, 0, 5⟩ [.resp 200 "KO bloqueada"]
        ⟨some "tok", some "r", some 10000, []⟩ []).1 = .ok true ∧
    (integOpenDoor 0 "D1" ⟨1, 0, 5⟩ [.resp 200 "KO bloqueada"]
        ⟨some "tok", some "r", some 10000, []⟩ []).1 = false ∧
    (integOpenDoor 0 "D1" ⟨1, 0, 5⟩ [.resp 200 "OK puerta abierta"]
        ⟨some "tok", some "r", some 10000, []⟩ []).1 = true ∧
    (integOpenDoor 0 "D1" ⟨1, 0, 5⟩ [.resp 200 ""]
        ⟨some "tok", some "r", some 10000, []⟩ []).1 = true := by
  refine ⟨(C2_open_door_amended ⟨some "tok", some "r", some 10000, []⟩ 0 "D1"
      ⟨1, 0, 5⟩ "KO bloqueada" [] [] (by decide)).1, ?_, ?_, ?_⟩
  · rw [(C2_open_door_amended ⟨some "tok", some "r", some 10000, []⟩ 0 "D1"
      ⟨1, 0, 5⟩ "KO bloqueada" [] [] (by decide)).2]
    decide
  · rw [(C2_open_door_amended ⟨some "tok", some "r", some 10000, []⟩ 0 "D1"
      ⟨1, 0, 5⟩ "OK puerta abierta" [] [] (by decide)).2]
    decide
  · rw [(C2_open_door_amended ⟨some "tok", some "r", some 10000, []⟩ 0 "D1"
      ⟨1, 0, 5⟩ "" [] [] (by decide)).2]
    decide

/-- Claim C3 counterexample: on the spec example input,
FermaxBlueAPI.get_door_devices emits exactly one door with id D1_1 and the
AccessId copied verbatim, but its display name is the bare title Main, not
Lobby Main: this implementation does not prefix the pairing tag. -/
theorem C3_counterexample :
    (apiGetDoorDevices [⟨none, some "D1", some "Lobby", none, none,
        [("1", ⟨some "Main", some true, some ⟨some 1, some 0, some 5⟩⟩),
         ("2", ⟨none, some false, some ⟨some 1, some 0, some 6⟩⟩)]⟩]).map
        (fun d => (d.id, d.name, d.access_id)) =
      [("D1_1", "Main", ⟨1, 0, 5⟩)] ∧
    "Main" ≠ "Lobby Main" := by
  exact ⟨rfl, by decide⟩

/-- Claim C3 as amended: the integration get_door_devices realizes the claimed
mapping — one door per visible entry (absent flag defaulting to visible),
id deviceId underscore doorKey, display name pairing tag plus space plus entry
title with the claimed fallback title, AccessId verbatim — while the api
variant uses the bare title without the tag prefix. -/
theorem C3_map_doors_amended (pairings : List Pairing) :
    (integGetDoorDevices pairings).map
        (fun d => SpecDoor.mk d.id d.name d.access_id) = map_doors_spec pairings := by
  unfold integGetDoorDevices map_doors_spec
  induction pairings with
  | nil => rfl
  | cons p ps ih =>
    simp only [List.flatMap_cons, List.map_append, ih, List.map_map]
    congr 1

/-- The door built from a visible entry is among the api door devices. -/
theorem mem_apiGetDoorDevices (ps : List Pairing) (p : Pairing)
    (kv : String × DoorEntry) (h1 : p ∈ ps) (h2 : kv ∈ p.accessDoorMap)
    (h3 : kv.2.visible.getD true = true) :
    mkApiDoor p kv ∈ apiGetDoorDevices ps := by
  unfold apiGetDoorDevices
  exact List.mem_flatMap.mpr
    ⟨p, h1, List.mem_map_of_mem _ (List.mem_filter.mpr ⟨h2, h3⟩)⟩

/-- The door built from a visible entry is among the integration doors. -/
theorem mem_integGetDoorDevices (ps : List Pairing) (p : Pairing)
    (kv : String × DoorEntry) (h1 : p ∈ ps) (h2 : kv ∈ p.accessDoorMap)
    (h3 : kv.2.visible.getD true = true) :
    mkIntegDoor p kv ∈ integGetDoorDevices ps := by
  unfold integGetDoorDevices
  exact List.mem_flatMap.mpr
    ⟨p, h1, List.mem_map_of_mem _ (List.mem_filter.mpr ⟨h2, h3⟩)⟩

/-- Claim C9: a visible door entry lacking the accessId object is still
emitted by both get_door_devices implementations, with AccessId 0,0,0; and
when an accessId object is present, each absent component defaults to 0. No
error is reported in either case (the mappers have no error channel). -/
theorem C9_default_access_id (ps : List Pairing) (p : Pairing)
    (kv : String × DoorEntry) (h1 : p ∈ ps) (h2 : kv ∈ p.accessDoorMap)
    (h3 : kv.2.visible.getD true = true) :
    (kv.2.accessId = none →
      mkApiDoor p kv ∈ apiGetDoorDevices ps ∧
      (mkApiDoor p kv).access_id = ⟨0, 0, 0⟩ ∧
      mkIntegDoor p kv ∈ integGetDoorDevices ps ∧
      (mkIntegDoor p kv).access_id = ⟨0, 0, 0⟩) ∧
    (∀ a, kv.2.accessId = some a →
      (mkApiDoor p kv).access_id =
        ⟨a.block.getD 0, a.subblock.getD 0, a.number.getD 0⟩ ∧
      (mkIntegDoor p kv).access_id =
        ⟨a.block.getD 0, a.subblock.getD 0, a.number.getD 0⟩) := by
  constructor
  · intro h4
    refine ⟨mem_apiGetDoorDevices ps p kv h1 h2 h3, ?_,
      mem_integGetDoorDevices ps p kv h1 h2 h3, ?_⟩
    · simp [mkApiDoor, doorAccessId, h4]
    · simp [mkIntegDoor, doorAccessId, h4]
  · intro a ha
    constructor
    · simp [mkApiDoor, doorAccessId, ha]
    · simp [mkIntegDoor, doorAccessId, ha]

/-- Claim C9 witness. -/
theorem C9_default_access_id_witness :
    mkApiDoor ⟨none, some "D1", some "Lobby", none, none,
        [("1", ⟨some "Main", none, none⟩)]⟩ ("1", ⟨some "Main", none, none⟩) ∈
      apiGetDoorDevices [⟨none, some "D1", some "Lobby", none, none,
        [("1", ⟨some "Main", none, none⟩)]⟩] ∧
    (mkApiDoor ⟨none, some "D1", some "Lobby", none, none,
        [("1", ⟨some "Main", none, none⟩)]⟩
        ("1", ⟨some "Main", none, none⟩)).access_id = ⟨0, 0, 0⟩ := by
  have h := C9_default_access_id
    [⟨none, some "D1", some "Lobby", none, none, [("1", ⟨some "Main", none, none⟩)]⟩]
    ⟨none, some "D1", some "Lobby", none, none, [("1", ⟨some "Main", none, none⟩)]⟩
    ("1", ⟨some "Main", none, none⟩)
    (by decide) (by decide) (by decide)
  exact ⟨(h.1 rfl).1, (h.1 rfl).2.1⟩

/-- A 200 refresh outcome carrying a fresh token pair renews the token state
identically whether refresh_auth takes the refresh-token branch or degrades to
authenticate. -/
theorem refresh_step (st : ClientState) (now : Int) (rest : List OauthOutcome) :
    apiRefreshAuth st now (.resp 200 ⟨some "t2", some "r2", some 3600⟩ "" :: rest) =
      (.ok true, ⟨some "t2", some "r2", some (now + 3600), st.pairings⟩, rest) := by
  cases h : optFalsy st.refresh_token <;>
    simp [apiRefreshAuth, apiAuthenticate, h, optFalsy]

/-- The renewed state is fresh for a further 3600 seconds. -/
theorem renewed_fresh (now : Int) (ps : List Pairing) :
    needs_refresh ⟨some "t2", some "r2", some (now + 3600), ps⟩ now = false := by
  simp [needs_refresh, optFalsy]

/-- wrapReq is the identity on a result whose first component is a success. -/
theorem wrapReq_ok {α β : Type} (r : PRes α × ClientState × List OauthOutcome × List β)
    (a : α) (h : r.1 = .ok a) : wrapReq r = r := by
  simp [wrapReq, h]

/-- Claim C1 counterexample: starting from a fresh token, a get_pairings call
that receives 401, then 401 again, then 200 does not stop after the second
401: it re-authenticates twice, issues a third request, and returns that
200 payload of that request, consuming all three pairings outcomes and both refresh
outcomes (both remaining scripts are empty). -/
theorem C1_counterexample :
    apiGetPairings 0
        [.resp 401 [] "u", .resp 401 [] "u",
         .resp 200 [⟨some "p1", some "D1", some "Lobby", some "H", none, []⟩] "ok"]
        ⟨some "tok", some "r", some 10000, []⟩
        [.resp 200 ⟨some "t2", some "r2", some 3600⟩ "",
         .resp 200 ⟨some "t2", some "r2", some 3600⟩ ""] =
      (.ok [⟨some "p1", some "D1", some "Lobby", some "H", none, []⟩],
       ⟨some "t2", some "r2", some 3600,
        [⟨some "p1", some "D1", some "Lobby", some "H", none, []⟩]⟩, [], []) := by
  rfl

/-- Every HTTP-200 body classifies as success in the api open_door. -/
theorem apiClassify200_true (result_text : String) :
    apiClassify200 result_text = true := by
  simp [apiClassify200]

/-- Claim C1 as amended: on 401, get_pairings and open_door re-authenticate
and retry via a recursive self-call with no retry cap: for every n, a run of n
consecutive 401 responses whose re-authentications succeed is followed by n
re-authentications and n+1 request attempts, after which the outcome of the
final 200 response is returned (its payload for get_pairings, true for
open_door) — the request script (n+1 outcomes) and the OAuth script (n
outcomes) are consumed in full and the call succeeds instead of failing after
the second 401. -/
theorem C1_retry_uncapped (n : Nat) (P : List Pairing) (b : String)
    (device_id : String) (access_id : AccessId) (st : ClientState)
    (now : Int) (h : needs_refresh st now = false) :
    ((apiGetPairings now
        (List.replicate n (.resp 401 [] "u") ++ [.resp 200 P "ok"]) st
        (List.replicate n (.resp 200 ⟨some "t2", some "r2", some 3600⟩ ""))).1 =
      .ok P ∧
     (apiGetPairings now
        (List.replicate n (.resp 401 [] "u") ++ [.resp 200 P "ok"]) st
        (List.replicate n (.resp 200 ⟨some "t2", some "r2", some 3600⟩ ""))).2.2.1 =
      [] ∧
     (apiGetPairings now
        (List.replicate n (.resp 401 [] "u") ++ [.resp 200 P "ok"]) st
        (List.replicate n (.resp 200 ⟨some "t2", some "r2", some 3600⟩ ""))).2.2.2 =
      []) ∧
    ((apiOpenDoor now device_id access_id
        (List.replicate n (.resp 401 "u") ++ [.resp 200 b]) st
        (List.replicate n (.resp 200 ⟨some "t2", some "r2", some 3600⟩ ""))).1 =
      .ok true ∧
     (apiOpenDoor now device_id access_id
        (List.replicate n (.resp 401 "u") ++ [.resp 200 b]) st
        (List.replicate n (.resp 200 ⟨some "t2", some "r2", some 3600⟩ ""))).2.2.1 =
      [] ∧
     (apiOpenDoor now device_id access_id
        (List.replicate n (.resp 401 "u") ++ [.resp 200 b]) st
        (List.replicate n (.resp 200 ⟨some "t2", some "r2", some 3600⟩ ""))).2.2.2 =
      []) := by
  constructor
  · induction n generalizing st with
    | zero =>
      simp [apiGetPairings, apiEnsureAuth_fresh st now _ h]
    | succ n ih =>
      have hstep := refresh_step st now
        (List.replicate n (.resp 200 ⟨some "t2", some "r2", some 3600⟩ ""))
      have hfresh := renewed_fresh now st.pairings
      have hr := ih ⟨some "t2", some "r2", some (now + 3600), st.pairings⟩ hfresh
      have hwrap := wrapReq_ok
        (apiGetPairings now
          (List.replicate n (.resp 401 [] "u") ++ [.resp 200 P "ok"])
          ⟨some "t2", some "r2", some (now + 3600), st.pairings⟩
          (List.replicate n (.resp 200 ⟨some "t2", some "r2", some 3600⟩ ""))) P hr.1
      simp [List.replicate_succ, apiGetPairings, apiEnsureAuth_fresh st now _ h,
        hstep, hwrap, hr.1, hr.2.1, hr.2.2]
  · induction n generalizing st with
    | zero =>
      simp [apiOpenDoor, apiEnsureAuth_fresh st now _ h, apiClassify200_true]
    | succ n ih =>
      have hstep := refresh_step st now
        (List.replicate n (.resp 200 ⟨some "t2", some "r2", some 3600⟩ ""))
      have hfresh := renewed_fresh now st.pairings
      have hr := ih ⟨some "t2", some "r2", some (now + 3600), st.pairings⟩ hfresh
      have hwrap := wrapReq_ok
        (apiOpenDoor now device_id access_id
          (List.replicate n (.resp 401 "u") ++ [.resp 200 b])
          ⟨some "t2", some "r2", some (now + 3600), st.pairings⟩
          (List.replicate n (.resp 200 ⟨some "t2", some "r2", some 3600⟩ ""))) true hr.1
      simp [List.replicate_succ, apiOpenDoor, apiEnsureAuth_fresh st now _ h,
        hstep, hwrap, hr.1, hr.2.1, hr.2.2]

/-- Claim C1 amended witness. -/
theorem C1_retry_uncapped_witness :
    (apiGetPairings 0
        (List.replicate 2 (.resp 401 [] "u") ++ [.resp 200 [] "ok"])
        ⟨some "tok", some "r", some 10000, []⟩
        (List.replicate 2 (.resp 200 ⟨some "t2", some "r2", some 3600⟩ ""))).1 =
      .ok [] ∧
    (apiGetPairings 0
        (List.replicate 2 (.resp 401 [] "u") ++ [.resp 200 [] "ok"])
        ⟨some "tok", some "r", some 10000, []⟩
        (List.replicate 2 (.resp 200 ⟨some "t2", some "r2", some 3600⟩ ""))).2.2.2 =
      [] ∧
    (apiOpenDoor 0 "D1" ⟨1, 0, 5⟩
        (List.replicate 2 (.resp 401 "u") ++ [.resp 200 "KO bloqueada"])
        ⟨some "tok", some "r", some 10000, []⟩
        (List.replicate 2 (.resp 200 ⟨some "t2", some "r2", some 3600⟩ ""))).1 =
      .ok true ∧
    (apiOpenDoor 0 "D1" ⟨1, 0, 5⟩
        (List.replicate 2 (.resp 401 "u") ++ [.resp 200 "KO bloqueada"])
        ⟨some "tok", some "r", some 10000, []⟩
        (List.replicate 2 (.resp 200 ⟨some "t2", some "r2", some 3600⟩ ""))).2.2.2 =
      [] :=
  ⟨(C1_retry_uncapped 2 [] "KO bloqueada" "D1" ⟨1, 0, 5⟩
      ⟨some "tok", some "r", some 10000, []⟩ 0 (by decide)).1.1,
   (C1_retry_uncapped 2 [] "KO bloqueada" "D1" ⟨1, 0, 5⟩
      ⟨some "tok", some "r", some 10000, []⟩ 0 (by decide)).1.2.2,
   (C1_retry_uncapped 2 [] "KO bloqueada" "D1" ⟨1, 0, 5⟩
      ⟨some "tok", some "r", some 10000, []⟩ 0 (by decide)).2.1,
   (C1_retry_uncapped 2 [] "KO bloqueada" "D1" ⟨1, 0, 5⟩
      ⟨some "tok", some "r", some 10000, []⟩ 0 (by decide)).2.2.2⟩

/-- The authenticate except chain only lets taxonomy errors escape. -/
theorem taxonomy_apiAuthExcept (e : PyExn) : taxonomy (apiAuthExcept e) = true := by
  cases e <;> rfl

/-- The get_pairings and open_door except chain only lets taxonomy errors
escape. -/
theorem taxonomy_apiReqExcept (e : PyExn) : taxonomy (apiReqExcept e) = true := by
  cases e <;> rfl

/-- authenticate returns a value or raises a taxonomy error. -/
theorem resTax_apiAuthenticate (st : ClientState) (now : Int)
    (script : List OauthOutcome) :
    resTaxonomy (apiAuthenticate st now script).1 = true := by
  rcases script with _ | ⟨⟨s, body, text⟩ | e, rest⟩
  · simp [apiAuthenticate, resTaxonomy, taxonomy_apiAuthExcept]
  · simp only [apiAuthenticate]
    split_ifs <;> simp [resTaxonomy, taxonomy_apiAuthExcept]
  · simp [apiAuthenticate, resTaxonomy, taxonomy_apiAuthExcept]

/-- refresh_auth returns a value or raises a taxonomy error. -/
theorem resTax_apiRefreshAuth (st : ClientState) (now : Int)
    (script : List OauthOutcome) :
    resTaxonomy (apiRefreshAuth st now script).1 = true := by
  rcases script with _ | ⟨⟨s, body, text⟩ | e, rest⟩ <;>
    simp only [apiRefreshAuth] <;>
    split_ifs <;>
    first
      | exact resTax_apiAuthenticate _ _ _
      | simp [resTaxonomy]

/-- The api _ensure_auth returns a value or raises a taxonomy error. -/
theorem resTax_apiEnsureAuth (st : ClientState) (now : Int)
    (script : List OauthOutcome) :
    resTaxonomy (apiEnsureAuth st now script).1 = true := by
  unfold apiEnsureAuth
  split_ifs with h1 h2
  · have hb := resTax_apiAuthenticate st now script
    rcases ha : apiAuthenticate st now script with ⟨r, st1, rest⟩
    rw [ha] at hb
    rcases r with b | e
    · cases b <;> simp [resTaxonomy, taxonomy]
    · simpa [resTaxonomy] using hb
  · have hb := resTax_apiRefreshAuth st now script
    rcases ha : apiRefreshAuth st now script with ⟨r, st1, rest⟩
    rw [ha] at hb
    rcases r with b | e
    · cases b <;> simp [resTaxonomy, taxonomy]
    · simpa [resTaxonomy] using hb
  · simp [resTaxonomy]

/-- The except-chain wrapper always yields a value or a taxonomy error. -/
theorem resTax_wrapReq {α β : Type}
    (r : PRes α × ClientState × List OauthOutcome × List β) :
    resTaxonomy (wrapReq r).1 = true := by
  cases hr : r.1 <;> simp [wrapReq, hr, resTaxonomy, taxonomy_apiReqExcept]

/-- get_pairings returns a value or raises a taxonomy error. -/
theorem resTax_apiGetPairings (now : Int) (pairs : List PairOutcome)
    (st : ClientState) (oauth : List OauthOutcome) :
    resTaxonomy (apiGetPairings now pairs st oauth).1 = true := by
  have hens := resTax_apiEnsureAuth st now oauth
  rcases pairs with _ | ⟨⟨s, body, text⟩ | e, rest⟩
  · simp only [apiGetPairings]
    cases he : (apiEnsureAuth st now oauth).1 with
    | exn e => rw [he] at hens; simpa [resTaxonomy] using hens
    | ok b => simp [resTaxonomy, taxonomy_apiReqExcept]
  · simp only [apiGetPairings]
    cases he : (apiEnsureAuth st now oauth).1 with
    | exn e => rw [he] at hens; simpa [resTaxonomy] using hens
    | ok b =>
      cases h200 : s == 200
      · cases h401 : s == 401
        · simp [h200, h401, resTaxonomy, taxonomy_apiReqExcept]
        · simp only [h200, h401, Bool.false_eq_true, if_false, if_true]
          cases hra : (apiRefreshAuth (apiEnsureAuth st now oauth).2.1 now
              (apiEnsureAuth st now oauth).2.2).1 with
          | ok b2 =>
            cases b2
            · simp [resTaxonomy, taxonomy_apiReqExcept]
            · have hw := resTax_wrapReq
                (apiGetPairings now rest
                  (apiRefreshAuth (apiEnsureAuth st now oauth).2.1 now
                    (apiEnsureAuth st now oauth).2.2).2.1
                  (apiRefreshAuth (apiEnsureAuth st now oauth).2.1 now
                    (apiEnsureAuth st now oauth).2.2).2.2)
              simpa [resTaxonomy] using hw
          | exn e2 => simp [resTaxonomy, taxonomy_apiReqExcept]
      · simp [h200, resTaxonomy]
  · simp only [apiGetPairings]
    cases he : (apiEnsureAuth st now oauth).1 with
    | exn e2 => rw [he] at hens; simpa [resTaxonomy] using hens
    | ok b => simp [resTaxonomy, taxonomy_apiReqExcept]

/-- open_door returns a value or raises a taxonomy error. -/
theorem resTax_apiOpenDoor (now : Int) (device_id : String)
    (access_id : AccessId) (doors : List DoorOutcome) (st : ClientState)
    (oauth : List OauthOutcome) :
    resTaxonomy (apiOpenDoor now device_id access_id doors st oauth).1 = true := by
  have hens := resTax_apiEnsureAuth st now oauth
  rcases doors with _ | ⟨⟨s, result_text⟩ | e, rest⟩
  · simp only [apiOpenDoor]
    cases he : (apiEnsureAuth st now oauth).1 with
    | exn e => rw [he] at hens; simpa [resTaxonomy] using hens
    | ok b => simp [resTaxonomy, taxonomy_apiReqExcept]
  · simp only [apiOpenDoor]
    cases he : (apiEnsureAuth st now oauth).1 with
    | exn e => rw [he] at hens; simpa [resTaxonomy] using hens
    | ok b =>
      cases h200 : s == 200
      · cases h401 : s == 401
        · simp [h200, h401, resTaxonomy, taxonomy_apiReqExcept]
        · simp only [h200, h401, Bool.false_eq_true, if_false, if_true]
          cases hra : (apiRefreshAuth (apiEnsureAuth st now oauth).2.1 now
              (apiEnsureAuth st now oauth).2.2).1 with
          | ok b2 =>
            cases b2
            · simp [resTaxonomy, taxonomy_apiReqExcept]
            · have hw := resTax_wrapReq
                (apiOpenDoor now device_id access_id rest
                  (apiRefreshAuth (apiEnsureAuth st now oauth).2.1 now
                    (apiEnsureAuth st now oauth).2.2).2.1
                  (apiRefreshAuth (apiEnsureAuth st now oauth).2.1 now
                    (apiEnsureAuth st now oauth).2.2).2.2)
              simpa [resTaxonomy] using hw
          | exn e2 => simp [resTaxonomy, taxonomy_apiReqExcept]
      · simp [h200, resTaxonomy]
  · simp only [apiOpenDoor]
    cases he : (apiEnsureAuth st now oauth).1 with
    | exn e2 => rw [he] at hens; simpa [resTaxonomy] using hens
    | ok b => simp [resTaxonomy, taxonomy_apiReqExcept]

/-- Claim C8: every host-facing operation of the api client terminates in an
explicit result — a returned value or an error of the documented Fermax
taxonomy — for every input and every script of HTTP outcomes, timeouts,
transport errors and arbitrary injected exceptions; no alien fault escapes
the except chains. (The integration variants and the pure get_door_devices
and get_home_info return plain values by construction.) -/
theorem C8_explicit_results (now : Int) (st : ClientState)
    (oauth : List OauthOutcome) (pairs : List PairOutcome)
    (doors : List DoorOutcome) (device_id : String) (access_id : AccessId) :
    resTaxonomy (apiAuthenticate st now oauth).1 = true ∧
    resTaxonomy (apiRefreshAuth st now oauth).1 = true ∧
    resTaxonomy (apiGetPairings now pairs st oauth).1 = true ∧
    resTaxonomy (apiOpenDoor now device_id access_id doors st oauth).1 = true :=
  ⟨resTax_apiAuthenticate st now oauth,
   resTax_apiRefreshAuth st now oauth,
   resTax_apiGetPairings now pairs st oauth,
   resTax_apiOpenDoor now device_id access_id doors st oauth⟩

/-- authenticate never touches the stored pairings. -/
theorem pairings_apiAuthenticate (st : ClientState) (now : Int)
    (script : List OauthOutcome) :
    (apiAuthenticate st now script).2.1.pairings = st.pairings := by
  rcases script with _ | ⟨⟨s, body, text⟩ | e, rest⟩
  · rfl
  · simp only [apiAuthenticate]
    split_ifs <;> rfl
  · rfl

/-- refresh_auth never touches the stored pairings. -/
theorem pairings_apiRefreshAuth (st : ClientState) (now : Int)
    (script : List OauthOutcome) :
    (apiRefreshAuth st now script).2.1.pairings = st.pairings := by
  rcases script with _ | ⟨⟨s, body, text⟩ | e, rest⟩ <;>
    simp only [apiRefreshAuth] <;>
    split_ifs <;>
    first
      | rfl
      | exact pairings_apiAuthenticate _ _ _

/-- The api _ensure_auth never touches the stored pairings. -/
theorem pairings_apiEnsureAuth (st : ClientState) (now : Int)
    (script : List OauthOutcome) :
    (apiEnsureAuth st now script).2.1.pairings = st.pairings := by
  unfold apiEnsureAuth
  split_ifs with h1 h2
  · have hp := pairings_apiAuthenticate st now script
    rcases ha : apiAuthenticate st now script with ⟨r, st1, rest⟩
    rw [ha] at hp
    rcases r with b | e
    · cases b <;> simpa using hp
    · simpa using hp
  · have hp := pairings_apiRefreshAuth st now script
    rcases ha : apiRefreshAuth st now script with ⟨r, st1, rest⟩
    rw [ha] at hp
    rcases r with b | e
    · cases b <;> simpa using hp
    · simpa using hp
  · rfl

/-- The integration authenticate never touches the stored pairings. -/
theorem pairings_integAuthenticate (st : ClientState) (now : Int)
    (script : List OauthOutcome) :
    (integAuthenticate st now script).2.1.pairings = st.pairings := by
  rcases script with _ | ⟨⟨s, body, text⟩ | e, rest⟩
  · rfl
  · simp only [integAuthenticate]
    split_ifs <;> rfl
  · rfl

/-- Claim C10: the stored pairings are overwritten only by an HTTP-200
pairings response. The api get_pairings leaves them unchanged whenever it
fails (raises); the integration get_pairings leaves them unchanged and
returns the empty list whenever no outcome in its script is a 200. -/
theorem C10_pairings_frame (now : Int) (pairs : List PairOutcome)
    (st : ClientState) (oauth : List OauthOutcome) :
    (∀ e, (apiGetPairings now pairs st oauth).1 = .exn e →
      (apiGetPairings now pairs st oauth).2.1.pairings = st.pairings) ∧
    ((∀ r ∈ pairs, pairIs200 r = false) →
      (integGetPairings now pairs st oauth).2.1.pairings = st.pairings ∧
      (integGetPairings now pairs st oauth).1 = []) := by
  induction pairs generalizing st oauth with
  | nil =>
    constructor
    · intro e0 he
      have hens := pairings_apiEnsureAuth st now oauth
      simp only [apiGetPairings]
      cases hEA : (apiEnsureAuth st now oauth).1 <;>
        simpa [hEA] using hens
    · intro hall
      cases hc : (optFalsy st.access_token || needs_refresh st now)
      · simp [integGetPairings, hc]
      · cases hb : (integAuthenticate st now oauth).1 <;>
          simp [integGetPairings, hc, hb, pairings_integAuthenticate]
  | cons p rest ih =>
    rcases p with ⟨s, body, text⟩ | e
    · constructor
      · intro e0 he
        have hens := pairings_apiEnsureAuth st now oauth
        revert he
        simp only [apiGetPairings]
        intro he
        cases hEA : (apiEnsureAuth st now oauth).1 with
        | exn ee => simpa [hEA] using hens
        | ok b =>
          cases h200 : s == 200
          · cases h401 : s == 401
            · simp [hEA, h200, h401] at he ⊢
              exact hens
            · try simp only [hEA] at he ⊢
              try simp only [h200, h401, Bool.false_eq_true, if_false, if_true] at he ⊢
              try simp only [hEA] at he ⊢
              have hrp := pairings_apiRefreshAuth
                (apiEnsureAuth st now oauth).2.1 now (apiEnsureAuth st now oauth).2.2
              cases hRA : (apiRefreshAuth (apiEnsureAuth st now oauth).2.1 now
                  (apiEnsureAuth st now oauth).2.2).1 with
              | exn e2 => simpa [hRA, hrp] using hens
              | ok b2 =>
                cases b2
                · simpa [hRA, hrp] using hens
                · simp only [hRA, if_true] at he ⊢
                  cases hr : (apiGetPairings now rest
                      (apiRefreshAuth (apiEnsureAuth st now oauth).2.1 now
                        (apiEnsureAuth st now oauth).2.2).2.1
                      (apiRefreshAuth (apiEnsureAuth st now oauth).2.1 now
                        (apiEnsureAuth st now oauth).2.2).2.2).1 with
                  | ok a =>
                    rw [wrapReq_ok _ a hr] at he
                    rw [hr] at he
                    simp at he
                  | exn e1 =>
                    have hIH := (ih (apiRefreshAuth (apiEnsureAuth st now oauth).2.1 now
                        (apiEnsureAuth st now oauth).2.2).2.1
                      (apiRefreshAuth (apiEnsureAuth st now oauth).2.1 now
                        (apiEnsureAuth st now oauth).2.2).2.2).1 e1 hr
                    simp only [wrapReq, hr]
                    simpa [hIH, hrp] using hens
          · simp [hEA, h200] at he
      · intro hall
        have hhead : (s == 200) = false := by
          simpa [pairIs200] using hall (.resp s body text) (List.mem_cons_self _ _)
        have htail : ∀ r ∈ rest, pairIs200 r = false :=
          fun r hr => hall r (List.mem_cons_of_mem _ hr)
        cases hc : (optFalsy st.access_token || needs_refresh st now)
        · cases h401 : s == 401
          · simp [integGetPairings, hc, hhead, h401]
          · cases hb : (integAuthenticate st now oauth).1
            · simp [integGetPairings, hc, hhead, h401, hb, pairings_integAuthenticate]
            · have hIH := (ih (integAuthenticate st now oauth).2.1
                  (integAuthenticate st now oauth).2.2).2 htail
              simp [integGetPairings, hc, hhead, h401, hb, hIH.1, hIH.2,
                pairings_integAuthenticate]
        · cases hb0 : (integAuthenticate st now oauth).1
          · simp [integGetPairings, hc, hb0, pairings_integAuthenticate]
          · cases h401 : s == 401
            · simp [integGetPairings, hc, hb0, hhead, h401, pairings_integAuthenticate]
            · cases hb1 : (integAuthenticate (integAuthenticate st now oauth).2.1 now
                  (integAuthenticate st now oauth).2.2).1
              · simp [integGetPairings, hc, hb0, hhead, h401, hb1,
                  pairings_integAuthenticate]
              · have hIH := (ih (integAuthenticate (integAuthenticate st now oauth).2.1
                      now (integAuthenticate st now oauth).2.2).2.1
                    (integAuthenticate (integAuthenticate st now oauth).2.1 now
                      (integAuthenticate st now oauth).2.2).2.2).2 htail
                simp [integGetPairings, hc, hb0, hhead, h401, hb1, hIH.1, hIH.2,
                  pairings_integAuthenticate]
    · constructor
      · intro e0 he
        have hens := pairings_apiEnsureAuth st now oauth
        revert he
        simp only [apiGetPairings]
        intro he
        cases hEA : (apiEnsureAuth st now oauth).1 with
        | exn ee => simpa [hEA] using hens
        | ok b =>
          simp [hEA] at he ⊢
          exact hens
      · intro hall
        cases hc : (optFalsy st.access_token || needs_refresh st now)
        · simp [integGetPairings, hc]
        · cases hb0 : (integAuthenticate st now oauth).1 <;>
            simp [integGetPairings, hc, hb0, pairings_integAuthenticate]

/-- Claim C10 witness. -/
theorem C10_pairings_frame_witness :
    (apiGetPairings 0 [.resp 500 [] "err"]
        ⟨some "tok", some "r", some 10000,
         [⟨some "p1", some "D1", some "Lobby", some "H", none, []⟩]⟩ []).2.1.pairings =
      [⟨some "p1", some "D1", some "Lobby", some "H", none, []⟩] ∧
    (integGetPairings 0 [.resp 500 [] "err"]
        ⟨some "tok", some "r", some 10000,
         [⟨some "p1", some "D1", some "Lobby", some "H", none, []⟩]⟩ []).2.1.pairings =
      [⟨some "p1", some "D1", some "Lobby", some "H", none, []⟩] ∧
    (integGetPairings 0 [.resp 500 [] "err"]
        ⟨some "tok", some "r", some 10000,
         [⟨some "p1", some "D1", some "Lobby", some "H", none, []⟩]⟩ []).1 = [] := by
  have h := C10_pairings_frame 0 [.resp 500 [] "err"]
    ⟨some "tok", some "r", some 10000,
     [⟨some "p1", some "D1", some "Lobby", some "H", none, []⟩]⟩ []
  exact ⟨h.1 (.fermax (.connectionError "err")) rfl,
    (h.2 (by decide)).1, (h.2 (by decide)).2⟩
